import Mathlib

/-!
Shallow embedding of `src/excel_creator.py` (class `ExcelCreator`), a thin
wrapper over the openpyxl workbook model.  Cell grids are modelled as total
functions from 1-based coordinates to cells; where the Python code delegates
to openpyxl (cell materialisation, extent tracking, chart references, row
iteration) the embedding reproduces openpyxl's documented semantics:
`sheet.cell(row, column)` materialises the cell and extends the tracked
extent; `sheet.max_row` / `sheet.max_column` are the maxima of materialised
coordinates (at least 1); `sheet.append` writes at the row after the highest
row materialised so far; `sheet[r]` (integer indexing) iterates columns
`1 .. max_column` of row `r`; `sheet.columns` iterates columns
`1 .. max_column`, rows `1 .. max_row`.  Coordinates are 1-based; openpyxl
rejects row/column 0, so every theorem about cell-writing loops carries the
corresponding `1 ≤` hypotheses.
-/

namespace ExcelModel

/-- A cell value: the scalar shapes the wrapper actually stores (Python
`None`, `str`, `int`, `bool`). -/
inductive Value
  | empty
  | str (s : String)
  | int (n : Int)
  | bool (b : Bool)
deriving DecidableEq, Repr


/-- openpyxl `Font`, restricted to the fields this repository sets. -/
structure Font where
  bold : Bool := false
  color : Option String := none
  size : Option Nat := none
deriving DecidableEq, Repr


/-- openpyxl `PatternFill`, restricted to the fields this repository sets. -/
structure PatternFill where
  start_color : String
  end_color : String
  fill_type : String
deriving DecidableEq, Repr


/-- openpyxl `Alignment`, restricted to the fields this repository sets. -/
structure Alignment where
  horizontal : Option String := none
  vertical : Option String := none
deriving DecidableEq, Repr


/-- One cell of the grid: value plus the style slots the wrapper assigns. -/
structure Cell where
  value : Value := .empty
  font : Option Font := none
  fill : Option PatternFill := none
  alignment : Option Alignment := none
  hyperlink : Option String := none
deriving DecidableEq, Repr


/-- The four chart classes dispatched on in `create_chart`
(`BarChart`, `LineChart`, `PieChart`, `ScatterChart`). -/
inductive ChartKind
  | bar
  | line
  | pie
  | scatter
deriving DecidableEq, Repr


/-- openpyxl `Reference`: the rectangular data range handed to a chart. -/
structure Reference where
  min_col : Nat
  min_row : Nat
  max_col : Nat
  max_row : Nat
deriving DecidableEq, Repr


/-- A chart as assembled by `create_chart` and attached via
`sheet.add_chart(chart, position)`. -/
structure Chart where
  kind : ChartKind
  data : Reference
  titles_from_data : Bool
  title : Option String
  x_axis_title : Option String
  y_axis_title : Option String
  legend : Bool
  show_data_labels : Bool
  position : String
deriving DecidableEq, Repr


/-- Python exceptions raised by the wrapped code paths. -/
inductive PyError
  | keyError (key : String)
  | valueError (msg : String)
deriving DecidableEq, Repr


/-- One worksheet.  `cells` is total (reading an unmaterialised cell gives
the default empty cell, as in openpyxl); `current_row` / `top_col` track the
highest 1-based row/column ever materialised (0 when none), mirroring how
openpyxl derives `max_row` / `max_column` from the materialised coordinates
(this code only ever adds cells, never deletes them). -/
structure Sheet where
  title : String := "Sheet"
  cells : Nat → Nat → Cell := fun _ _ => {}
  current_row : Nat := 0
  top_col : Nat := 0
  charts : List Chart := []
  column_widths : Nat → Option Nat := fun _ => none


/-- openpyxl `sheet.max_row`: at least 1 even for an empty sheet. -/
def Sheet.max_row (s : Sheet) : Nat := max 1 s.current_row


/-- openpyxl `sheet.max_column`: at least 1 even for an empty sheet. -/
def Sheet.max_col (s : Sheet) : Nat := max 1 s.top_col


/-- openpyxl `sheet.cell(row=r, column=c)` followed by a mutation `f` of the
returned cell: materialises the cell (extending the tracked extent) and
updates it in place.  Precondition (enforced by openpyxl with a raise,
carried as hypotheses by the theorems below): `1 ≤ r` and `1 ≤ c`. -/
def updateCell (s : Sheet) (r c : Nat) (f : Cell → Cell) : Sheet :=
  { s with
    cells := fun r' c' => if r' = r ∧ c' = c then f (s.cells r' c') else s.cells r' c'
    current_row := max s.current_row r
    top_col := max s.top_col c }


/-- `sheet.cell(row=r, column=c).value = v`. -/
def setCellValue (s : Sheet) (r c : Nat) (v : Value) : Sheet :=
  updateCell s r c (fun cell => { cell with value := v })


/-- `PatternFill(start_color=color, end_color=color, fill_type="solid")`. -/
def solidFill (color : String) : PatternFill :=
  { start_color := color, end_color := color, fill_type := "solid" }


/-- The per-cell body of the `add_headers` loop: set the value, the header
font, a solid header-background fill and centred alignment. -/
def headerCellWrite (font : Font) (bg : String) (v : Value) (c : Cell) : Cell :=
  { c with
    value := v
    font := some font
    fill := some (solidFill bg)
    alignment := some { horizontal := some "center", vertical := some "center" } }


/-- The `for col_num, header in enumerate(headers, 1)` loop of
`add_headers`, started at column `col`. -/
def addHeaderCells (font : Font) (bg : String) (start_row : Nat) :
    Sheet → Nat → List Value → Sheet
  | s, _, [] => s
  | s, col, h :: rest =>
      addHeaderCells font bg start_row
        (updateCell s start_row col (headerCellWrite font bg h)) (col + 1) rest


/-- The state of an `ExcelCreator` object: the constructor-set flags and
header style, and the active sheet.  (The `file_name`, `append` flag,
workbook file loading and logger are filesystem/logging concerns outside
the in-memory model; a fresh workbook starts with one empty active
sheet.) -/
structure ExcelCreator where
  include_header : Bool
  header_font : Font
  header_bg_color : String
  sheet : Sheet


/-- `Font(bold=True, color="FFFFFF")`, the constructor's default header
font. -/
def defaultHeaderFont : Font := { bold := true, color := some "FFFFFF" }


/-- Python truthiness on an optional string argument (`x if x else d`):
both `None` and the empty string select the default. -/
def truthyOr (x : Option String) (d : String) : String :=
  match x with
  | some t => if t.isEmpty then d else t
  | none => d


/-- `ExcelCreator.__init__(file_name, include_header, append, header_font,
header_bg_color)`, modelling the in-memory state it establishes.  A `Font`
object is always truthy in Python, so a supplied font is kept as is; the
background color goes through string truthiness. -/
def initCreator (include_header : Bool) (header_font : Option Font)
    (header_bg_color : Option String) : ExcelCreator :=
  { include_header := include_header
    header_font := header_font.getD defaultHeaderFont
    header_bg_color := truthyOr header_bg_color "4F81BD"
    sheet := {} }


/-- `ExcelCreator.add_headers(headers, start_row)`: guarded by
`include_header`, writes the styled header cells at columns `1 ..`. -/
def add_headers (ec : ExcelCreator) (headers : List Value) (start_row : Nat) :
    ExcelCreator :=
  if ec.include_header then
    { ec with
      sheet := addHeaderCells ec.header_font ec.header_bg_color start_row
                 ec.sheet 1 headers }
  else ec


/-- The `for row_num in range(start_row, sheet.max_row + 1)` loop of
`auto_number_rows`, with `row` the next row to number and the third
argument the number of iterations left. -/
def numberFrom (start_row column : Nat) : Sheet → Nat → Nat → Sheet
  | s, _, 0 => s
  | s, row, n + 1 =>
      numberFrom start_row column
        (setCellValue s row column (Value.int ((row : Int) - (start_row : Int) + 1)))
        (row + 1) n


/-- `ExcelCreator.auto_number_rows(start_row, column)`: write
`row - start_row + 1` into the given column for every row from
`start_row` through `sheet.max_row`, the bound being read once at entry
(Python `range` snapshots it). -/
def auto_number_rows (s : Sheet) (start_row column : Nat) : Sheet :=
  numberFrom start_row column s start_row (s.max_row + 1 - start_row)


/-- The cell-writing loop of openpyxl `sheet.append(data)`, columns
`col ..` of row `row`. -/
def writeRowVals (row : Nat) : Sheet → Nat → List Value → Sheet
  | s, _, [] => s
  | s, col, v :: rest => writeRowVals row (setCellValue s row col v) (col + 1) rest


/-- `ExcelCreator.add_row(data)` with no font and no explicit start row:
delegates to openpyxl `sheet.append(data)`, which writes the values at the
row after the highest row materialised so far and then advances that
tracker to the new row. -/
def append_row (s : Sheet) (vals : List Value) : Sheet :=
  { writeRowVals (s.current_row + 1) s 1 vals with current_row := s.current_row + 1 }


/-- A sequence of appending `add_row` calls. -/
def appendRows : Sheet → List (List Value) → Sheet
  | s, [] => s
  | s, vs :: rest => appendRows (append_row s vs) rest


/-- A concrete three-row sheet (a header row plus two data rows) used by
the C3 witness. -/
def sheetC3 : Sheet :=
  appendRows {} [[Value.str "H", Value.str "V"], [Value.str "a", Value.int 10],
    [Value.str "b", Value.int 20]]


/-- The `for cell in self.sheet[row]` loop of `apply_zebra_striping`:
openpyxl integer indexing `sheet[row]` iterates (materialising them) the
cells of columns `1 .. max_column` of that row; each receives the chosen
fill.  `col` is the next column, the third argument the iterations left. -/
def fillCols (row : Nat) (fill : PatternFill) : Sheet → Nat → Nat → Sheet
  | s, _, 0 => s
  | s, col, n + 1 =>
      fillCols row fill
        (updateCell s row col (fun cell => { cell with fill := some fill })) (col + 1) n


/-- The `for row in range(start_row, end_row + 1)` loop of
`apply_zebra_striping`: Python int truthiness makes `if row % 2` select
`color1` exactly for odd rows. -/
def zebraRows (color1 color2 : String) : Sheet → Nat → Nat → Sheet
  | s, _, 0 => s
  | s, row, n + 1 =>
      zebraRows color1 color2
        (fillCols row (if row % 2 ≠ 0 then solidFill color1 else solidFill color2)
          s 1 s.max_col)
        (row + 1) n


/-- `ExcelCreator.apply_zebra_striping(start_row, end_row, color1, color2)`. -/
def apply_zebra_striping (s : Sheet) (start_row end_row : Nat)
    (color1 color2 : String) : Sheet :=
  zebraRows color1 color2 s start_row (end_row + 1 - start_row)


/-- A concrete sheet (one header row, one data row) used by the C4
witness. -/
def sheetC4 : Sheet :=
  appendRows {} [[Value.str "H"], [Value.int 1]]


/-- Length of `str(v)` for the Python values a cell holds here: `None`
prints as `"None"`, booleans as `"True"` / `"False"`, ints in decimal. -/
def strRepLen : Value → Nat
  | .empty => 4
  | .str s => s.length
  | .int n => (toString n).length
  | .bool b => if b then 4 else 5


/-- Python `len(v)`: defined for strings, raises `TypeError` otherwise. -/
def pyLen : Value → Option Nat
  | .str s => some s.length
  | _ => none


/-- One iteration of the measuring loop in the auto branch of
`set_column_widths`: the guard measures `len(str(cell.value))`, but the
assignment under it measures `len(cell.value)`, which raises `TypeError`
for non-string values; the bare `except` swallows that, leaving
`max_length` unchanged. -/
def measureCell (m : Nat) (v : Value) : Nat :=
  if strRepLen v > m then
    match pyLen v with
    | some l => l
    | none => m
  else m


/-- The per-column scan of the auto branch: `sheet.columns` yields the
cells of rows `1 .. max_row` for each column. -/
def colMaxLength (s : Sheet) (c : Nat) : Nat :=
  (List.range s.max_row).foldl (fun m i => measureCell m ((s.cells (i + 1) c).value)) 0


/-- `ExcelCreator.set_column_widths(auto_size, widths)`: the `if auto_size`
branch wins whenever `auto_size` is true; otherwise a truthy (non-empty)
`widths` list is zipped positionally onto columns starting at 1; otherwise
nothing happens.  Widths are keyed here by column number (openpyxl keys
its `column_dimensions` by the equivalent column letter). -/
def set_column_widths (s : Sheet) (auto_size : Bool)
    (widths : Option (List Nat)) : Sheet :=
  if auto_size then
    { s with column_widths := fun c =>
        if 1 ≤ c ∧ c ≤ s.max_col then some (colMaxLength s c + 2)
        else s.column_widths c }
  else
    match widths with
    | some ws =>
        if ws.isEmpty then s
        else
          { s with column_widths := fun c =>
              if 1 ≤ c ∧ c ≤ ws.length then ws.get? (c - 1)
              else s.column_widths c }
    | none => s


/-- A concrete sheet whose column 1 holds the number 12345 (textual length
5) and the string "ab" (length 2): the C5 failing input. -/
def sheetC5 : Sheet :=
  setCellValue (setCellValue {} 1 1 (Value.int 12345)) 2 1 (Value.str "ab")


/-- A concrete sheet with the string "abc" in cell A1: the C9
counterexample input. -/
def sheetC9 : Sheet := setCellValue {} 1 1 (Value.str "abc")


/-- `ExcelCreator.add_hyperlink(cell, url, display_text)`: the A1-style
cell reference is resolved by openpyxl to 1-based `(row, col)`
coordinates, taken here directly.  The hyperlink target is set first, then
the displayed value `display_text if display_text else url` (Python string
truthiness: `None` and `""` both fall back to the URL). -/
def add_hyperlink (s : Sheet) (row col : Nat) (url : String)
    (display_text : Option String) : Sheet :=
  updateCell
    (updateCell s row col (fun c => { c with hyperlink := some url }))
    row col (fun c => { c with value := Value.str (truthyOr display_text url) })


/-- Coordinate bounds enforced by the MinMax descriptors of openpyxl
`Reference` at construction: columns `MinMax(min=1, max=16384)`, rows
`MinMax(min=1, max=1000000)` (the descriptor cap, which is stricter than
the worksheet's own 1048576-row limit); values outside raise `ValueError`.
`Reference` performs no check against the sheet's occupied extent. -/
abbrev refBoundsOk (min_col min_row max_col max_row : Nat) : Prop :=
  1 ≤ min_col ∧ min_col ≤ 16384 ∧ 1 ≤ max_col ∧ max_col ≤ 16384
    ∧ 1 ≤ min_row ∧ min_row ≤ 1000000 ∧ 1 ≤ max_row ∧ max_row ≤ 1000000


/-- The chart-kind dispatch chain of `create_chart` (`if/elif` on the
`chart_type` string; anything else raises `ValueError`). -/
def chartKindOf (chart_type : String) : Option ChartKind :=
  if chart_type = "bar" then some .bar
  else if chart_type = "line" then some .line
  else if chart_type = "pie" then some .pie
  else if chart_type = "scatter" then some .scatter
  else none


/-- The descriptor failure `chart.add_data(data, titles_from_data=True)`
can hit: `add_data` iterates `data.cols` (per-column references, columns
`min_col .. max_col`) and `SeriesFactory` calls `Reference.pop()` on each
to obtain the series title cell.  `pop` bumps the reference's `min_col`
when the reference spans a single row and its `min_row` otherwise, and the
MinMax descriptor validates the bumped value: a single-row range whose
columns reach 16384 overflows the column cap at the last series, and a
reversed range with `min_row = 1000000` (so `max_row < min_row`, the
columns loop non-empty) overflows the row cap at the first series.  All
other descriptor-valid inputs pop without error. -/
def addDataPopError (min_col min_row max_col max_row : Nat) : Option PyError :=
  if min_row = max_row then
    if max_col = 16384 then some (.valueError "Max value is 16384") else none
  else
    if min_row = 1000000 ∧ min_col ≤ max_col then
      some (.valueError "Max value is 1000000")
    else none

/-- `ExcelCreator.create_chart(...)`: builds an openpyxl `Reference`
(whose MinMax descriptors enforce only `refBoundsOk`, never the occupied
extent), dispatches on `chart_type` (raising `ValueError` for an unknown
kind), calls `add_data` with `titles_from_data=True` (which can raise the
`Reference.pop` descriptor overflow of `addDataPopError`), sets optional
titles, legend and data labels, and appends the chart to the sheet via
`add_chart`.  The surrounding `try/except` logs and re-raises, so every
failure propagates, and the sheet is not mutated before a raise
(`add_chart` is the only sheet mutation and comes last). -/
def create_chart (s : Sheet) (min_col min_row max_col max_row : Nat)
    (chart_type : String) (title x_axis_title y_axis_title : Option String)
    (position : String) (include_legend show_data_labels : Bool) :
    Except PyError Sheet :=
  if refBoundsOk min_col min_row max_col max_row then
    match chartKindOf chart_type with
    | some k =>
        match addDataPopError min_col min_row max_col max_row with
        | some e => .error e
        | none =>
            .ok { s with charts := s.charts ++
              [{ kind := k
                 data := { min_col := min_col, min_row := min_row,
                           max_col := max_col, max_row := max_row }
                 titles_from_data := true
                 title := title
                 x_axis_title := x_axis_title
                 y_axis_title := y_axis_title
                 legend := include_legend
                 show_data_labels := show_data_labels
                 position := position }] }
    | none => .error (.valueError ("Unsupported chart type: " ++ chart_type))
  else
    -- the descriptor's message names the violated bound; no theorem below
    -- inspects this branch's payload
    .error (.valueError "Reference coordinate outside MinMax descriptor bounds")


/-- A concrete three-row sheet used by C1 (its extent is rows 1-3,
columns 1-2). -/
def sheetC1 : Sheet :=
  appendRows {} [[Value.str "A", Value.int 1], [Value.str "B", Value.int 2],
    [Value.str "C", Value.int 3]]


/-- The chart `create_chart` attaches in the C1 counterexample. -/
def chartC1 : Chart :=
  { kind := .bar
    data := { min_col := 1, min_row := 1, max_col := 2, max_row := 10 }
    titles_from_data := true
    title := none
    x_axis_title := none
    y_axis_title := none
    legend := true
    show_data_labels := false
    position := "E15" }


/-- A concrete one-cell sheet used by the C2 witness. -/
def sheetC2 : Sheet := setCellValue {} 1 1 (Value.int 7)


/-- A workbook: the ordered sheet sequence.  `workbook[name]` looks a
sheet up by title and raises `KeyError` when no sheet has that title. -/
structure Workbook where
  sheets : List Sheet


/-- `workbook[title]`, as an optional lookup. -/
def lookupSheet (wb : Workbook) (t : String) : Option Sheet :=
  wb.sheets.find? (fun s => s.title == t)


/-- openpyxl `workbook.copy_worksheet(source)` followed by the title
assignment of `copy_sheet`: appends a new sheet whose grid, extent and
column widths are copied from the source; chart attachments are not
copied.  (The openpyxl title setter renames a colliding title by suffixing
a digit; that path is irrelevant to the missing-source claim settled
here.) -/
def copyWorksheet (src : Sheet) (new_title : String) : Sheet :=
  { title := new_title
    cells := src.cells
    current_row := src.current_row
    top_col := src.top_col
    charts := []
    column_widths := src.column_widths }


/-- The `try` block of `ExcelCreator.copy_sheet`: look the source sheet up
(raising `KeyError` when absent), copy it and retitle the copy. -/
def copy_sheet_try (wb : Workbook) (src new : String) : Except PyError Workbook :=
  match lookupSheet wb src with
  | none => .error (.keyError src)
  | some s => .ok { sheets := wb.sheets ++ [copyWorksheet s new] }


/-- `ExcelCreator.copy_sheet(source_sheet_name, new_sheet_name)`: the
`except` clause catches every exception, logs it and does not re-raise,
so the caller always gets a normal return; a failed lookup leaves the
workbook exactly as it was. -/
def copy_sheet (wb : Workbook) (src new : String) : Except PyError Workbook :=
  match copy_sheet_try wb src new with
  | .ok wb2 => .ok wb2
  | .error _ => .ok wb


/-- A concrete one-sheet workbook used by C7. -/
def wbC7 : Workbook := { sheets := [{ title := "Payments" }] }


theorem addHeaderCells_cells_of_lt (f : Font) (bg : String) (r : Nat)
    (hs : List Value) :
    ∀ (s : Sheet) (col r' c' : Nat), c' < col →
      (addHeaderCells f bg r s col hs).cells r' c' = s.cells r' c' := by
  induction hs with
  | nil => intro s col r' c' _; rfl
  | cons h rest ih =>
      intro s col r' c' hlt
      simp only [addHeaderCells]
      rw [ih _ (col + 1) r' c' (Nat.lt_succ_of_lt hlt)]
      have hcond : ¬ (r' = r ∧ c' = col) := by omega
      simp [updateCell, hcond]


theorem addHeaderCells_cells_written (f : Font) (bg : String) (r : Nat)
    (hs : List Value) :
    ∀ (s : Sheet) (col i : Nat) (hi : i < hs.length),
      (addHeaderCells f bg r s col hs).cells r (col + i)
        = headerCellWrite f bg (hs.get ⟨i, hi⟩) (s.cells r (col + i)) := by
  induction hs with
  | nil => intro s col i hi; exact absurd hi (Nat.not_lt_zero i)
  | cons h rest ih =>
      intro s col i hi
      simp only [addHeaderCells]
      cases i with
      | zero =>
          rw [addHeaderCells_cells_of_lt f bg r rest _ (col + 1) r (col + 0) (by omega)]
          simp [updateCell]
      | succ j =>
          have hj : j < rest.length := Nat.lt_of_succ_lt_succ hi
          have hcol : col + (j + 1) = (col + 1) + j := by omega
          rw [hcol, ih _ (col + 1) j hj]
          have hcond : ¬ ((col + 1) + j = col) := by omega
          simp [updateCell, hcond]


theorem updateCell_max_row (s : Sheet) (r c : Nat) (f : Cell → Cell) :
    (updateCell s r c f).max_row = max s.max_row r := by
  simp only [updateCell, Sheet.max_row]
  omega


theorem numberFrom_cells_untouched (start col : Nat) :
    ∀ (n : Nat) (s : Sheet) (row r c : Nat),
      (c ≠ col ∨ r < row ∨ row + n ≤ r) →
      (numberFrom start col s row n).cells r c = s.cells r c := by
  intro n
  induction n with
  | zero => intro s row r c _; rfl
  | succ m ih =>
      intro s row r c hcase
      simp only [numberFrom]
      rw [ih _ (row + 1) r c (by omega)]
      have hcond : ¬ (r = row ∧ c = col) := by omega
      simp [setCellValue, updateCell, hcond]


theorem numberFrom_cells_value (start col : Nat) :
    ∀ (n : Nat) (s : Sheet) (row r : Nat), row ≤ r → r < row + n →
      ((numberFrom start col s row n).cells r col).value
        = Value.int ((r : Int) - (start : Int) + 1) := by
  intro n
  induction n with
  | zero => intro s row r h1 h2; omega
  | succ m ih =>
      intro s row r h1 h2
      simp only [numberFrom]
      rcases Nat.eq_or_lt_of_le h1 with heq | hlt
      · subst heq
        rw [numberFrom_cells_untouched start col m _ (row + 1) row col (by omega)]
        simp [setCellValue, updateCell]
      · exact ih _ (row + 1) r hlt (by omega)


theorem numberFrom_max_row (start col : Nat) :
    ∀ (n : Nat) (s : Sheet) (row : Nat), row + n ≤ s.max_row + 1 →
      (numberFrom start col s row n).max_row = s.max_row := by
  intro n
  induction n with
  | zero => intro s row _; rfl
  | succ m ih =>
      intro s row h
      simp only [numberFrom]
      have h1 : (setCellValue s row col (Value.int ((row : Int) - (start : Int) + 1))).max_row
          = s.max_row := by
        simp only [setCellValue]
        rw [updateCell_max_row]
        omega
      rw [ih _ (row + 1) (by rw [h1]; omega), h1]


theorem numberFrom_current_row_ge (start col : Nat) :
    ∀ (n : Nat) (s : Sheet) (row : Nat), 1 ≤ n →
      row + n ≤ (numberFrom start col s row n).current_row + 1 := by
  intro n
  induction n with
  | zero => intro s row h; omega
  | succ m ih =>
      intro s row _
      simp only [numberFrom]
      cases Nat.eq_zero_or_pos m with
      | inl h0 =>
          subst h0
          show row + 1 ≤ max s.current_row row + 1
          omega
      | inr hpos =>
          have := ih (setCellValue s row col (Value.int ((row : Int) - (start : Int) + 1)))
            (row + 1) hpos
          omega


theorem writeRowVals_cells_other_row (row : Nat) :
    ∀ (vals : List Value) (s : Sheet) (col r c : Nat), r ≠ row →
      (writeRowVals row s col vals).cells r c = s.cells r c := by
  intro vals
  induction vals with
  | nil => intro s col r c _; rfl
  | cons v rest ih =>
      intro s col r c hne
      simp only [writeRowVals]
      rw [ih _ (col + 1) r c hne]
      have hcond : ¬ (r = row ∧ c = col) := by omega
      simp [setCellValue, updateCell, hcond]


theorem append_row_cells_le (s : Sheet) (vals : List Value) (r c : Nat)
    (h : r ≤ s.current_row) :
    (append_row s vals).cells r c = s.cells r c := by
  show (writeRowVals (s.current_row + 1) s 1 vals).cells r c = s.cells r c
  exact writeRowVals_cells_other_row (s.current_row + 1) vals s 1 r c (by omega)


theorem appendRows_cells_le :
    ∀ (rows : List (List Value)) (s : Sheet) (r c : Nat), r ≤ s.current_row →
      (appendRows s rows).cells r c = s.cells r c := by
  intro rows
  induction rows with
  | nil => intro s r c _; rfl
  | cons vs rest ih =>
      intro s r c h
      simp only [appendRows]
      rw [ih (append_row s vs) r c (by rw [append_row]; simp; omega)]
      exact append_row_cells_le s vs r c h


theorem appendRows_current_row_ge :
    ∀ (rows : List (List Value)) (s : Sheet),
      s.current_row ≤ (appendRows s rows).current_row := by
  intro rows
  induction rows with
  | nil => intro s; exact Nat.le_refl _
  | cons vs rest ih =>
      intro s
      simp only [appendRows]
      have h1 : s.current_row ≤ (append_row s vs).current_row := by
        show s.current_row ≤ s.current_row + 1
        omega
      exact Nat.le_trans h1 (ih (append_row s vs))


theorem auto_number_rows_value_at (s : Sheet) (start_row column r : Nat)
    (h1 : start_row ≤ r) (h2 : r ≤ s.max_row) :
    ((auto_number_rows s start_row column).cells r column).value
      = Value.int ((r : Int) - (start_row : Int) + 1) :=
  numberFrom_cells_value start_row column _ s start_row r h1 (by omega)


/-- C3: `auto_number_rows(start_row, column)` writes `row - start_row + 1`
into the given column of every row from `start_row` through the extent
current at call time; rows beyond that extent are untouched and the extent
itself is unchanged; the written numbers survive later appends (appended
rows are not renumbered until the next call); and a second call after
appending more rows numbers the whole enlarged extent consecutively. -/
theorem auto_number_rows_spec (s : Sheet) (start_row column : Nat)
    (rows : List (List Value))
    (h1 : 1 ≤ start_row) (h2 : start_row ≤ s.max_row) (hc : 1 ≤ column)
    (hrows : ∀ vs ∈ rows, vs ≠ []) :
    (∀ r, start_row ≤ r → r ≤ s.max_row →
        ((auto_number_rows s start_row column).cells r column).value
          = Value.int ((r : Int) - (start_row : Int) + 1))
      ∧ (∀ r c, s.max_row < r →
          (auto_number_rows s start_row column).cells r c = s.cells r c)
      ∧ (auto_number_rows s start_row column).max_row = s.max_row
      ∧ (∀ r, start_row ≤ r → r ≤ s.max_row →
          ((appendRows (auto_number_rows s start_row column) rows).cells r column).value
            = Value.int ((r : Int) - (start_row : Int) + 1))
      ∧ (∀ r, start_row ≤ r →
          r ≤ (appendRows (auto_number_rows s start_row column) rows).max_row →
          ((auto_number_rows (appendRows (auto_number_rows s start_row column) rows)
              start_row column).cells r column).value
            = Value.int ((r : Int) - (start_row : Int) + 1)) := by
  refine ⟨?_, ?_, ?_, ?_, ?_⟩
  · intro r hr1 hr2
    exact auto_number_rows_value_at s start_row column r hr1 hr2
  · intro r c hr
    exact numberFrom_cells_untouched start_row column _ s start_row r c (by omega)
  · exact numberFrom_max_row start_row column _ s start_row (by omega)
  · intro r hr1 hr2
    have hcur : s.max_row ≤ (auto_number_rows s start_row column).current_row := by
      show s.max_row
        ≤ (numberFrom start_row column s start_row (s.max_row + 1 - start_row)).current_row
      have := numberFrom_current_row_ge start_row column (s.max_row + 1 - start_row)
        s start_row (by omega)
      omega
    rw [appendRows_cells_le rows _ r column (by omega)]
    exact auto_number_rows_value_at s start_row column r hr1 hr2
  · intro r hr1 hr2
    exact auto_number_rows_value_at _ start_row column r hr1 hr2


/-- Witness for C3: on a concrete three-row sheet, numbering from row 2 in
column 1 puts the value 2 in row 3. -/
theorem auto_number_rows_spec_witness :
    ((auto_number_rows sheetC3 2 1).cells 3 1).value = Value.int 2 :=
  (auto_number_rows_spec sheetC3 2 1 [[Value.int 30]] (by decide) (by decide)
      (by decide) (by decide)).1 3 (by decide) (by decide)


theorem updateCell_max_col (s : Sheet) (r c : Nat) (f : Cell → Cell) :
    (updateCell s r c f).max_col = max s.max_col c := by
  simp only [updateCell, Sheet.max_col]
  omega


theorem fillCols_cells_untouched (row : Nat) (fill : PatternFill) :
    ∀ (n : Nat) (s : Sheet) (col r c : Nat),
      (r ≠ row ∨ c < col ∨ col + n ≤ c) →
      (fillCols row fill s col n).cells r c = s.cells r c := by
  intro n
  induction n with
  | zero => intro s col r c _; rfl
  | succ m ih =>
      intro s col r c hcase
      simp only [fillCols]
      rw [ih _ (col + 1) r c (by omega)]
      have hcond : ¬ (r = row ∧ c = col) := by omega
      simp [updateCell, hcond]


theorem fillCols_cells_fill (row : Nat) (fill : PatternFill) :
    ∀ (n : Nat) (s : Sheet) (col c : Nat), col ≤ c → c < col + n →
      ((fillCols row fill s col n).cells row c).fill = some fill := by
  intro n
  induction n with
  | zero => intro s col c h1 h2; omega
  | succ m ih =>
      intro s col c h1 h2
      simp only [fillCols]
      rcases Nat.eq_or_lt_of_le h1 with heq | hlt
      · subst heq
        rw [fillCols_cells_untouched row fill m _ (col + 1) row col (by omega)]
        simp [updateCell]
      · exact ih _ (col + 1) c hlt (by omega)


theorem fillCols_max_col (row : Nat) (fill : PatternFill) :
    ∀ (n : Nat) (s : Sheet) (col : Nat), col + n ≤ s.max_col + 1 →
      (fillCols row fill s col n).max_col = s.max_col := by
  intro n
  induction n with
  | zero => intro s col _; rfl
  | succ m ih =>
      intro s col h
      simp only [fillCols]
      have h1 : (updateCell s row col (fun cell => { cell with fill := some fill })).max_col
          = s.max_col := by
        rw [updateCell_max_col]
        omega
      rw [ih _ (col + 1) (by rw [h1]; omega), h1]


theorem zebraRows_cells_untouched (color1 color2 : String) :
    ∀ (n : Nat) (s : Sheet) (row r c : Nat), (r < row ∨ row + n ≤ r) →
      (zebraRows color1 color2 s row n).cells r c = s.cells r c := by
  intro n
  induction n with
  | zero => intro s row r c _; rfl
  | succ m ih =>
      intro s row r c hcase
      simp only [zebraRows]
      rw [ih _ (row + 1) r c (by omega)]
      exact fillCols_cells_untouched row _ s.max_col s 1 r c (Or.inl (by omega))


theorem zebraRows_cells_fill (color1 color2 : String) :
    ∀ (n : Nat) (s : Sheet) (row r c : Nat), row ≤ r → r < row + n →
      1 ≤ c → c ≤ s.max_col →
      ((zebraRows color1 color2 s row n).cells r c).fill
        = some (if r % 2 ≠ 0 then solidFill color1 else solidFill color2) := by
  intro n
  induction n with
  | zero => intro s row r c h1 h2 _ _; omega
  | succ m ih =>
      intro s row r c h1 h2 hc1 hc2
      simp only [zebraRows]
      rcases Nat.eq_or_lt_of_le h1 with heq | hlt
      · subst heq
        rw [zebraRows_cells_untouched color1 color2 m _ (row + 1) row c (by omega)]
        exact fillCols_cells_fill row _ s.max_col s 1 c hc1 (by omega)
      · have hmc : c ≤ (fillCols row
            (if row % 2 ≠ 0 then solidFill color1 else solidFill color2)
            s 1 s.max_col).max_col := by
          rw [fillCols_max_col row _ s.max_col s 1 (by omega)]
          exact hc2
        exact ih _ (row + 1) r c hlt (by omega) hc1 hmc


/-- C4: every row in `[start_row, end_row]` receives a solid fill chosen
solely by row parity — `color1` for odd rows, `color2` for even rows —
independent of cell content (the sheet is arbitrary). -/
theorem apply_zebra_striping_parity (s : Sheet) (start_row end_row : Nat)
    (color1 color2 : String) (r c : Nat)
    (h1 : 1 ≤ start_row) (hr1 : start_row ≤ r) (hr2 : r ≤ end_row)
    (hc1 : 1 ≤ c) (hc2 : c ≤ s.max_col) :
    ((apply_zebra_striping s start_row end_row color1 color2).cells r c).fill
      = some (if r % 2 ≠ 0 then solidFill color1 else solidFill color2) :=
  zebraRows_cells_fill color1 color2 (end_row + 1 - start_row) s start_row r c
    hr1 (by omega) hc1 hc2


/-- Witness for C4: `apply_zebra_striping(2, 7, "FFFFFF", "F0F0F0")` gives
row 2 (an even row) the fill `F0F0F0`. -/
theorem apply_zebra_striping_parity_witness :
    ((apply_zebra_striping sheetC4 2 7 "FFFFFF" "F0F0F0").cells 2 1).fill
      = some (solidFill "F0F0F0") := by
  have h := apply_zebra_striping_parity sheetC4 2 7 "FFFFFF" "F0F0F0" 2 1
    (by decide) (by decide) (by decide) (by decide) (by decide)
  simpa using h


/-- C5 (code bug, evaluated at the failing input): auto-sizing a column
holding the number 12345 (textual length 5) and the string "ab" sets the
width to 4 = 2 + 2, not 7 = 5 + 2 as the claim requires: the guard
measures `len(str(value))` but the assignment measures `len(value)`,
which raises for the int and is swallowed, so the numeric cell never
contributes to the maximum. -/
theorem set_column_widths_autosize_numeric_skipped :
    (set_column_widths sheetC5 true none).column_widths 1 = some 4
      ∧ strRepLen (Value.int 12345) + 2 = 7 :=
  ⟨rfl, rfl⟩


/-- C9 counterexample: requesting auto-size together with an explicit
widths list neither fails (the source has no error path here and returns
normally) nor leaves the widths unchanged: column 1 goes from unset to
width 5 (auto-sized from "abc", the supplied width 50 being ignored). -/
theorem set_column_widths_both_modes_cex :
    sheetC9.column_widths 1 = none
      ∧ (set_column_widths sheetC9 true (some [50])).column_widths 1 = some 5 :=
  ⟨rfl, rfl⟩


/-- C9 amended: when auto-size and an explicit widths list are requested
simultaneously, auto-size takes precedence and the widths list is ignored:
the call behaves exactly as auto-size alone (consistently, for every sheet
state and widths list). -/
theorem set_column_widths_auto_wins (s : Sheet) (ws : Option (List Nat)) :
    set_column_widths s true ws = set_column_widths s true none := rfl


/-- C10 counterexample: with the non-null but empty display text `""` the
displayed value is the URL, not the supplied display text, refuting the
claim at `display_text = ""`. -/
theorem add_hyperlink_empty_display_cex :
    ((add_hyperlink {} 1 1 "http://example.com" (some "")).cells 1 1).value
        = Value.str "http://example.com"
      ∧ Value.str "http://example.com" ≠ Value.str "" :=
  ⟨rfl, by decide⟩


/-- C10 amended: `add_hyperlink` always sets the cell's hyperlink target
to the URL; the displayed value is the display text when that is non-null
and non-empty, and the URL itself when the display text is null or
empty. -/
theorem add_hyperlink_spec (s : Sheet) (row col : Nat) (url : String)
    (dt : Option String) :
    (((add_hyperlink s row col url dt).cells row col).hyperlink = some url)
      ∧ (∀ t, dt = some t → t.isEmpty = false →
          ((add_hyperlink s row col url dt).cells row col).value = Value.str t)
      ∧ (dt = none →
          ((add_hyperlink s row col url dt).cells row col).value = Value.str url)
      ∧ (dt = some "" →
          ((add_hyperlink s row col url dt).cells row col).value = Value.str url) := by
  refine ⟨?_, ?_, ?_, ?_⟩
  · simp [add_hyperlink, updateCell]
  · intro t ht hne
    subst ht
    simp [add_hyperlink, updateCell, truthyOr, hne]
  · intro h
    subst h
    simp [add_hyperlink, updateCell, truthyOr]
  · intro h
    subst h
    simp [add_hyperlink, updateCell, truthyOr]
    intro habs
    exact absurd habs (by decide)


/-- Witness for C10 at concrete inputs: non-empty display text is shown,
the target is the URL, and a null display text shows the URL. -/
theorem add_hyperlink_spec_witness :
    ((add_hyperlink {} 1 1 "http://x" (some "Click")).cells 1 1).hyperlink = some "http://x"
      ∧ ((add_hyperlink {} 1 1 "http://x" (some "Click")).cells 1 1).value = Value.str "Click"
      ∧ ((add_hyperlink {} 2 2 "http://y" none).cells 2 2).value = Value.str "http://y" :=
  ⟨(add_hyperlink_spec {} 1 1 "http://x" (some "Click")).1,
   (add_hyperlink_spec {} 1 1 "http://x" (some "Click")).2.1 "Click" rfl (by decide),
   (add_hyperlink_spec {} 2 2 "http://y" none).2.2.1 rfl⟩


/-- C1 counterexample: on a sheet of extent 3 rows, a bar chart over rows
1-10 (max row well beyond the extent) is created successfully and appended
to the chart list — no out-of-bounds failure occurs and the chart list
does change. -/
theorem create_chart_out_of_extent_cex :
    sheetC1.max_row = 3
      ∧ create_chart sheetC1 1 1 2 10 "bar" none none none "E15" true false
        = .ok { sheetC1 with charts := sheetC1.charts ++ [chartC1] } :=
  ⟨rfl, rfl⟩


/-- C1 amended: `create_chart` performs no validation of the data range
against the sheet's occupied extent: for any coordinates within the
`Reference` descriptor bounds and any supported chart kind — in
particular when the range's max row or max column exceeds the sheet's
current extent — provided only that the titles-from-data `Reference.pop`
does not itself overflow a descriptor (which happens only for single-row
ranges whose columns reach 16384 and for reversed ranges starting at row
1000000), the call succeeds and appends exactly one chart carrying that
data range to the sheet's chart list. -/
theorem create_chart_no_extent_validation (s : Sheet)
    (min_col min_row max_col max_row : Nat) (chart_type : String)
    (k : ChartKind) (title xt yt : Option String) (position : String)
    (legend labels : Bool)
    (hb : refBoundsOk min_col min_row max_col max_row)
    (hk : chartKindOf chart_type = some k)
    (hp : addDataPopError min_col min_row max_col max_row = none) :
    create_chart s min_col min_row max_col max_row chart_type title xt yt
        position legend labels
      = .ok { s with charts := s.charts ++
          [{ kind := k
             data := { min_col := min_col, min_row := min_row,
                       max_col := max_col, max_row := max_row }
             titles_from_data := true
             title := title
             x_axis_title := xt
             y_axis_title := yt
             legend := legend
             show_data_labels := labels
             position := position }] } := by
  simp only [create_chart]
  rw [if_pos hb, hk, hp]


/-- Witness for C1 at a concrete out-of-extent input: a line chart over
rows 1-10 on the three-row sheet. -/
theorem create_chart_no_extent_validation_witness :
    create_chart sheetC1 1 1 2 10 "line" none none none "E15" true false
      = .ok { sheetC1 with charts := sheetC1.charts ++
          [{ kind := .line
             data := { min_col := 1, min_row := 1, max_col := 2, max_row := 10 }
             titles_from_data := true
             title := none
             x_axis_title := none
             y_axis_title := none
             legend := true
             show_data_labels := false
             position := "E15" }] } :=
  create_chart_no_extent_validation sheetC1 1 1 2 10 "line" .line none none none
    "E15" true false (by decide) rfl rfl


/-- C2: for every `chart_type` outside {"bar", "line", "pie", "scatter"}
(with a data reference inside the `Reference` MinMax descriptor bounds —
columns up to 16384, rows up to 1000000 — so the reference constructor
does not fail first), `create_chart` raises the
unsupported-chart-type `ValueError`; the `except` clause re-raises it, so
it propagates to the caller, and no chart is attached (the raise happens
before any mutation, and the error result carries no sheet). -/
theorem create_chart_unsupported_kind (s : Sheet)
    (min_col min_row max_col max_row : Nat) (chart_type : String)
    (title xt yt : Option String) (position : String) (legend labels : Bool)
    (hb : refBoundsOk min_col min_row max_col max_row)
    (hk : chartKindOf chart_type = none) :
    create_chart s min_col min_row max_col max_row chart_type title xt yt
        position legend labels
      = .error (.valueError ("Unsupported chart type: " ++ chart_type)) := by
  simp only [create_chart]
  rw [if_pos hb, hk]


/-- Witness for C2: requesting an "area" chart fails with the
unsupported-chart-type error. -/
theorem create_chart_unsupported_kind_witness :
    create_chart sheetC2 1 1 2 3 "area" none none none "E15" true false
      = .error (.valueError ("Unsupported chart type: " ++ "area")) :=
  create_chart_unsupported_kind sheetC2 1 1 2 3 "area" none none none "E15"
    true false (by decide) rfl


/-- C7 counterexample: copying from the non-existent source "Missing"
returns normally with the workbook unchanged — the `KeyError` is caught,
logged and swallowed, so no typed failure reaches the caller. -/
theorem copy_sheet_missing_source_cex :
    lookupSheet wbC7 "Missing" = none
      ∧ copy_sheet wbC7 "Missing" "New" = .ok wbC7 :=
  ⟨rfl, rfl⟩


/-- C7 amended: for every workbook and every source title naming no
existing sheet, `copy_sheet` catches the lookup `KeyError` and swallows
it (logging only): the call returns normally — no error propagates to the
caller — and the workbook's sheet sequence is unchanged. -/
theorem copy_sheet_missing_source_swallowed (wb : Workbook) (src new : String)
    (h : lookupSheet wb src = none) :
    copy_sheet wb src new = .ok wb := by
  simp [copy_sheet, copy_sheet_try, h]


/-- Witness for C7 at a concrete workbook and missing source title. -/
theorem copy_sheet_missing_source_swallowed_witness :
    copy_sheet wbC7 "Nope" "Copy" = .ok wbC7 :=
  copy_sheet_missing_source_swallowed wbC7 "Nope" "Copy" rfl


/-- C6: when the creator was constructed with `include_header = false`,
`add_headers` performs no grid mutation: every cell (hence its value, font,
fill and alignment) and the sheet's `max_row` are unchanged, for any header
list and start row. -/
theorem add_headers_include_header_false_noop (ec : ExcelCreator)
    (headers : List Value) (start_row : Nat) (h : ec.include_header = false) :
    (∀ r c, (add_headers ec headers start_row).sheet.cells r c = ec.sheet.cells r c)
      ∧ (add_headers ec headers start_row).sheet.max_row = ec.sheet.max_row := by
  simp [add_headers, h]


/-- Witness for C6 at a concrete creator (constructed with
`include_header = false`) and a concrete header list. -/
theorem add_headers_include_header_false_noop_witness :
    (∀ r c, (add_headers (initCreator false none none) [Value.str "A", Value.str "B"] 1).sheet.cells r c
        = (initCreator false none none).sheet.cells r c)
      ∧ (add_headers (initCreator false none none) [Value.str "A", Value.str "B"] 1).sheet.max_row
        = (initCreator false none none).sheet.max_row :=
  add_headers_include_header_false_noop (initCreator false none none)
    [Value.str "A", Value.str "B"] 1 rfl


/-- C8: with no header font and no header background color supplied at
construction, every header cell written by any subsequent `add_headers`
call carries the default font (bold, white) and the solid accent-blue
fill `4F81BD`, whatever the sheet state at the time of the call. -/
theorem default_header_style (s : Sheet) (headers : List Value)
    (start_row i : Nat) (hi : i < headers.length) :
    (((add_headers { initCreator true none none with sheet := s } headers start_row).sheet.cells
        start_row (1 + i)).font = some { bold := true, color := some "FFFFFF", size := none })
      ∧ (((add_headers { initCreator true none none with sheet := s } headers start_row).sheet.cells
        start_row (1 + i)).fill = some (solidFill "4F81BD")) := by
  have h : (add_headers { initCreator true none none with sheet := s } headers start_row).sheet
      = addHeaderCells defaultHeaderFont "4F81BD" start_row s 1 headers := by
    simp [add_headers, initCreator, truthyOr]
  rw [h, addHeaderCells_cells_written defaultHeaderFont "4F81BD" start_row headers s 1 i hi]
  exact ⟨rfl, rfl⟩


/-- Witness for C8: the first header cell of a concrete call carries the
default bold-white font and the accent-blue fill. -/
theorem default_header_style_witness :
    (((add_headers { initCreator true none none with sheet := {} } [Value.str "ID"] 1).sheet.cells
        1 (1 + 0)).font = some { bold := true, color := some "FFFFFF", size := none })
      ∧ (((add_headers { initCreator true none none with sheet := {} } [Value.str "ID"] 1).sheet.cells
        1 (1 + 0)).fill = some (solidFill "4F81BD")) :=
  default_header_style {} [Value.str "ID"] 1 0 (by decide)


end ExcelModel
